import Mathlib

/-!
Verification of the tbtn ACPI button driver (src/tbtn_driver.c).

The driver translates ACPI notifications into input-subsystem key events:
on notify code 0x80 it evaluates the firmware method HINF, takes the low
7 bits of the returned 64-bit integer as a key value, decodes it through a
fixed switch (57/56 for button A1 press/release, 67/66 for button A2), and
reports the result through the sparse-keymap helper against the keymap
table `tbtn_keymap`.

We embed the driver shallowly: the notify handler becomes a pure function
from (device context, event code, firmware oracle answer) to a result
record collecting the log lines written, the number of HINF evaluations,
the calls made to the event emitter (`sparse_keymap_report_event`), the key
events successfully emitted, and the final device context.  The firmware
answer is passed in as an `Except` value since HINF is host firmware, not
repository code.  The `add` callback becomes a function from an environment
of injected allocation/registration outcomes to a bind result.
-/

/-- Key code KEY_PROG1 of the Linux input-event-codes header. -/
def KEY_PROG1 : Nat := 148

/-- Key code KEY_PROG2 of the Linux input-event-codes header. -/
def KEY_PROG2 : Nat := 149

/-- Entry kinds of a sparse keymap used by tbtn_keymap: a key entry or the
terminating sentinel. -/
inductive KeyEntryType where
  | KE_KEY
  | KE_END
deriving DecidableEq, Repr

/-- One entry of a sparse keymap: entry kind, raw scan code, and the
symbolic key code it maps to. -/
structure KeyEntry where
  type : KeyEntryType
  code : Nat
  keycode : Nat
deriving DecidableEq, Repr

/-- The static keymap table of src/tbtn_driver.c, lines 21-27: raw code 57
maps to KEY_PROG1 (button A1), raw code 67 maps to KEY_PROG2 (button A2),
followed by the KE_END sentinel. -/
def tbtn_keymap : List KeyEntry :=
  [⟨.KE_KEY, 57, KEY_PROG1⟩, ⟨.KE_KEY, 67, KEY_PROG2⟩, ⟨.KE_END, 0, 0⟩]

/-- Lookup of a raw scan code in a sparse keymap: scan the entries in
order, stopping at the KE_END sentinel, and return the first KE_KEY entry
whose code matches. -/
def sparse_keymap_entry : List KeyEntry → Nat → Option KeyEntry
  | [], _ => none
  | e :: rest, code =>
    match e.type with
    | .KE_END => none
    | .KE_KEY => if e.code = code then some e else sparse_keymap_entry rest code

/-- The event-emitter boundary, `sparse_keymap_report_event`: look the raw
code up in the device keymap; on a hit, report the entry's symbolic key
code with the given value (returning the emitted (keycode, value) pair);
on a miss, emit nothing and fail (`none`). -/
def sparse_keymap_report_event (keymap : List KeyEntry) (code : Nat) (value : Int) :
    Option (Nat × Int) :=
  match sparse_keymap_entry keymap code with
  | some ke => some (ke.keycode, value)
  | none => none

/-- The virtual input device, reduced to the state the notify handler
reads: the keymap installed by sparse_keymap_setup. -/
structure InputDev where
  keymap : List KeyEntry
deriving DecidableEq, Repr

/-- The per-device driver context `struct tbtn_dev`: an opaque firmware
handle and a possibly-null pointer to the input device. -/
structure TbtnDev where
  handle : Nat
  input_dev : Option InputDev
deriving DecidableEq, Repr

/-- The log lines the notify handler can write, with their printf
arguments. -/
inductive Log where
  | warnUninitializedDevice
  | infoNotifyReceived
  | errHinfFailed (status : Nat)
  | infoHinfReturned (hinf_result : Nat)
  | warnUnhandledKeyValue (key_value : Nat)
  | warnReportFailed (hinf_result : Nat) (report_key : Nat) (report_type : Int)
  | infoReportedKeyEvent (report_key : Nat) (report_type : Int)
  | infoUnknownEvent (event : Nat)
deriving DecidableEq, Repr

/-- Log classifier: true exactly on the pr_warn lines of the handler. -/
def Log.isWarn : Log → Bool
  | .warnUninitializedDevice => true
  | .warnUnhandledKeyValue _ => true
  | .warnReportFailed _ _ _ => true
  | _ => false

/-- Result of one invocation of the notify handler: the log lines written,
how many times the HINF firmware method was evaluated, the (report_key,
report_type) arguments of each call made to the event emitter, the
(keycode, value) events the emitter successfully emitted, and the device
context as the handler leaves it. -/
structure NotifyResult where
  logs : List Log
  hinfQueries : Nat
  emitterCalls : List (Nat × Int)
  emitted : List (Nat × Int)
  finalDev : Option TbtnDev
deriving DecidableEq, Repr

/-- The switch on key_value in tbtn_notify_handler (src/tbtn_driver.c,
lines 77-98): 57 yields (report_key 57, press), 56 yields (report_key 57,
release), 67 yields (report_key 67, press), 66 yields (report_key 67,
release); any other value is unhandled (`none`). -/
def decode_key_value (key_value : Nat) : Option (Nat × Int) :=
  if key_value = 57 then some (57, 1)
  else if key_value = 56 then some (57, 0)
  else if key_value = 67 then some (67, 1)
  else if key_value = 66 then some (67, 0)
  else none

/-- The decoder on the raw HINF result: key_value is the low 7 bits
(`hinf_result & 0x7F`), then the switch of decode_key_value. -/
def decode (hinf_result : Nat) : Option (Nat × Int) :=
  decode_key_value (hinf_result &&& 0x7F)

/-- The key_event_type computation of line 69 of src/tbtn_driver.c
(`hinf_result & 0x80`); its value is never read afterwards. -/
def key_event_type_of (hinf_result : Nat) : Nat :=
  hinf_result &&& 0x80

/-- The ACPI notify handler tbtn_notify_handler (src/tbtn_driver.c, lines
30-120), as a pure function.  `tbtn` is the driver data pointer (none for
null), `event` the ACPI notify code, and `hinf` the answer the HINF
firmware method would give if evaluated (error status or 64-bit value). -/
def tbtn_notify_handler (tbtn : Option TbtnDev) (event : Nat)
    (hinf : Except Nat Nat) : NotifyResult :=
  match tbtn with
  | none => ⟨[.warnUninitializedDevice], 0, [], [], none⟩
  | some dev =>
    match dev.input_dev with
    | none => ⟨[.warnUninitializedDevice], 0, [], [], some dev⟩
    | some idev =>
      match event with
      | 0x80 =>
        match hinf with
        | .error s => ⟨[.infoNotifyReceived, .errHinfFailed s], 1, [], [], some dev⟩
        | .ok hinf_result =>
          let key_value := hinf_result &&& 0x7F
          let _key_event_type := key_event_type_of hinf_result
          match decode_key_value key_value with
          | none =>
            ⟨[.infoNotifyReceived, .infoHinfReturned hinf_result,
              .warnUnhandledKeyValue key_value], 1, [], [], some dev⟩
          | some (report_key_value, event_type_to_report) =>
            if event_type_to_report ≠ -1 then
              match sparse_keymap_report_event idev.keymap report_key_value
                  event_type_to_report with
              | none =>
                ⟨[.infoNotifyReceived, .infoHinfReturned hinf_result,
                  .warnReportFailed hinf_result report_key_value event_type_to_report],
                 1, [(report_key_value, event_type_to_report)], [], some dev⟩
              | some ev =>
                ⟨[.infoNotifyReceived, .infoHinfReturned hinf_result,
                  .infoReportedKeyEvent report_key_value event_type_to_report],
                 1, [(report_key_value, event_type_to_report)], [ev], some dev⟩
            else
              ⟨[.infoNotifyReceived, .infoHinfReturned hinf_result], 1, [], [], some dev⟩
      | _ => ⟨[.infoUnknownEvent event], 0, [], [], some dev⟩

/-- A device context as produced by a successful bind: handle stored, input
device allocated and carrying the driver keymap. -/
def boundDev : TbtnDev := ⟨0, some ⟨tbtn_keymap⟩⟩

/-- Low 7 bits as bitwise-and coincide with mod 2^7. -/
theorem and_7F_eq_mod (n : Nat) : n &&& 0x7F = n % 2 ^ 7 :=
  Nat.and_pow_two_sub_one_eq_mod n 7

/-- C1: for every 64-bit raw status value, low 7 bits equal to 57 decode to
(PROG1, pressed), 56 to (PROG1, released), 67 to (PROG2, pressed), 66 to
(PROG2, released), and in each case exactly that pair is passed to the
event emitter (as the registered report key with the press/release value),
which emits exactly the corresponding PROG key event. -/
theorem decoder_maps_known_codes (raw : Nat) (hraw : raw < 2 ^ 64) :
    (raw % 2 ^ 7 = 57 →
      decode raw = some (57, 1) ∧
      sparse_keymap_entry tbtn_keymap 57 = some ⟨.KE_KEY, 57, KEY_PROG1⟩ ∧
      (tbtn_notify_handler (some boundDev) 0x80 (.ok raw)).emitterCalls = [(57, 1)] ∧
      (tbtn_notify_handler (some boundDev) 0x80 (.ok raw)).emitted = [(KEY_PROG1, 1)]) ∧
    (raw % 2 ^ 7 = 56 →
      decode raw = some (57, 0) ∧
      sparse_keymap_entry tbtn_keymap 57 = some ⟨.KE_KEY, 57, KEY_PROG1⟩ ∧
      (tbtn_notify_handler (some boundDev) 0x80 (.ok raw)).emitterCalls = [(57, 0)] ∧
      (tbtn_notify_handler (some boundDev) 0x80 (.ok raw)).emitted = [(KEY_PROG1, 0)]) ∧
    (raw % 2 ^ 7 = 67 →
      decode raw = some (67, 1) ∧
      sparse_keymap_entry tbtn_keymap 67 = some ⟨.KE_KEY, 67, KEY_PROG2⟩ ∧
      (tbtn_notify_handler (some boundDev) 0x80 (.ok raw)).emitterCalls = [(67, 1)] ∧
      (tbtn_notify_handler (some boundDev) 0x80 (.ok raw)).emitted = [(KEY_PROG2, 1)]) ∧
    (raw % 2 ^ 7 = 66 →
      decode raw = some (67, 0) ∧
      sparse_keymap_entry tbtn_keymap 67 = some ⟨.KE_KEY, 67, KEY_PROG2⟩ ∧
      (tbtn_notify_handler (some boundDev) 0x80 (.ok raw)).emitterCalls = [(67, 0)] ∧
      (tbtn_notify_handler (some boundDev) 0x80 (.ok raw)).emitted = [(KEY_PROG2, 0)]) := by
  refine ⟨?_, ?_, ?_, ?_⟩ <;> intro h <;>
  · rw [show (2 : ℕ) ^ 7 = 128 from by norm_num] at h
    simp [decode, decode_key_value, tbtn_notify_handler, boundDev,
      sparse_keymap_report_event, sparse_keymap_entry, tbtn_keymap,
      and_7F_eq_mod, h, KEY_PROG1, KEY_PROG2]

/-- C1 witness: the four cases of decoder_maps_known_codes evaluated at the
concrete raw values 0x39, 0x38, 0x43, 0x42. -/
theorem decoder_maps_known_codes_witness :
    decode 0x39 = some (57, 1) ∧
    (tbtn_notify_handler (some boundDev) 0x80 (.ok 0x39)).emitted = [(KEY_PROG1, 1)] ∧
    decode 0x38 = some (57, 0) ∧
    (tbtn_notify_handler (some boundDev) 0x80 (.ok 0x38)).emitted = [(KEY_PROG1, 0)] ∧
    decode 0x43 = some (67, 1) ∧
    (tbtn_notify_handler (some boundDev) 0x80 (.ok 0x43)).emitted = [(KEY_PROG2, 1)] ∧
    decode 0x42 = some (67, 0) ∧
    (tbtn_notify_handler (some boundDev) 0x80 (.ok 0x42)).emitted = [(KEY_PROG2, 0)] :=
  ⟨((decoder_maps_known_codes 0x39 (by norm_num)).1 (by norm_num)).1,
   ((decoder_maps_known_codes 0x39 (by norm_num)).1 (by norm_num)).2.2.2,
   ((decoder_maps_known_codes 0x38 (by norm_num)).2.1 (by norm_num)).1,
   ((decoder_maps_known_codes 0x38 (by norm_num)).2.1 (by norm_num)).2.2.2,
   ((decoder_maps_known_codes 0x43 (by norm_num)).2.2.1 (by norm_num)).1,
   ((decoder_maps_known_codes 0x43 (by norm_num)).2.2.1 (by norm_num)).2.2.2,
   ((decoder_maps_known_codes 0x42 (by norm_num)).2.2.2 (by norm_num)).1,
   ((decoder_maps_known_codes 0x42 (by norm_num)).2.2.2 (by norm_num)).2.2.2⟩

/-- Codomain of the decoder switch: the report key is 57 or 67 and the
report type is release (0) or press (1). -/
theorem decode_key_value_cases (kv rk : Nat) (et : Int)
    (h : decode_key_value kv = some (rk, et)) :
    (rk = 57 ∨ rk = 67) ∧ (et = 0 ∨ et = 1) := by
  unfold decode_key_value at h
  split_ifs at h <;> simp_all

/-- Normal form of the handler on notify 0x80 with a successful HINF
evaluation against an initialized device, expressed through the decoder. -/
theorem handler_ok_eq (h : Nat) (idev : InputDev) (r : Nat) :
    tbtn_notify_handler (some ⟨h, some idev⟩) 0x80 (.ok r) =
      match decode r with
      | none =>
        ⟨[.infoNotifyReceived, .infoHinfReturned r,
          .warnUnhandledKeyValue (r &&& 0x7F)], 1, [], [], some ⟨h, some idev⟩⟩
      | some (rk, et) =>
        match sparse_keymap_report_event idev.keymap rk et with
        | none =>
          ⟨[.infoNotifyReceived, .infoHinfReturned r,
            .warnReportFailed r rk et], 1, [(rk, et)], [], some ⟨h, some idev⟩⟩
        | some ev =>
          ⟨[.infoNotifyReceived, .infoHinfReturned r,
            .infoReportedKeyEvent rk et], 1, [(rk, et)], [ev], some ⟨h, some idev⟩⟩ := by
  show (match decode_key_value (r &&& 0x7F) with
    | none => _
    | some (report_key_value, event_type_to_report) =>
      if event_type_to_report ≠ -1 then _ else _) = _
  rcases hd : decode_key_value (r &&& 0x7F) with _ | ⟨rk, et⟩
  · simp [decode, hd]
  · have het := (decode_key_value_cases _ _ _ hd).2
    have hne : et ≠ -1 := by rcases het with h0 | h1 <;> omega
    simp only [decode, hd, hne, if_true, ne_eq, not_false_eq_true, if_pos]

/-- C2: two raw status values that agree on their low 7 bits lead to the
same decoded outcome and, for every device context, to the same emitter
calls and the same emitted events; the upper bits, bit 7 included (from
which the dead key_event_type computation reads), never affect the
outcome. -/
theorem decode_depends_only_on_low7 (r1 r2 : Nat)
    (h1 : r1 < 2 ^ 64) (h2 : r2 < 2 ^ 64) (hlow : r1 % 2 ^ 7 = r2 % 2 ^ 7) :
    decode r1 = decode r2 ∧
    ∀ tbtn : Option TbtnDev,
      (tbtn_notify_handler tbtn 0x80 (.ok r1)).emitterCalls =
        (tbtn_notify_handler tbtn 0x80 (.ok r2)).emitterCalls ∧
      (tbtn_notify_handler tbtn 0x80 (.ok r1)).emitted =
        (tbtn_notify_handler tbtn 0x80 (.ok r2)).emitted := by
  have hand : r1 &&& 0x7F = r2 &&& 0x7F := by
    rw [and_7F_eq_mod, and_7F_eq_mod, hlow]
  have hdec : decode r1 = decode r2 := by
    unfold decode
    rw [hand]
  refine ⟨hdec, ?_⟩
  rintro (_ | ⟨hdl, (_ | idev)⟩)
  · exact ⟨rfl, rfl⟩
  · exact ⟨rfl, rfl⟩
  · rw [handler_ok_eq, handler_ok_eq, hdec]
    rcases hd : decode r2 with _ | ⟨rk, et⟩
    · exact ⟨rfl, rfl⟩
    · rcases hs : sparse_keymap_report_event idev.keymap rk et with _ | ev <;>
        simp [hs]

/-- C2 witness: raw values 0x39 and 0xB9 differ exactly in bit 7 yet decode
identically and emit identically. -/
theorem decode_depends_only_on_low7_witness :
    decode 0x39 = decode 0xB9 ∧
    (tbtn_notify_handler (some boundDev) 0x80 (.ok 0x39)).emitted =
      (tbtn_notify_handler (some boundDev) 0x80 (.ok 0xB9)).emitted :=
  ⟨(decode_depends_only_on_low7 0x39 0xB9 (by norm_num) (by norm_num) (by norm_num)).1,
   ((decode_depends_only_on_low7 0x39 0xB9 (by norm_num) (by norm_num)
      (by norm_num)).2 (some boundDev)).2⟩

/-- C3: a raw value whose low 7 bits are none of 56, 57, 66, 67 is
unrecognized: the decoder yields none, no emitter call is made, nothing is
emitted, and exactly one warning is logged (the unhandled-key_value
warning), for every initialized device. -/
theorem decoder_rejects_unknown_codes (raw : Nat) (hraw : raw < 2 ^ 64)
    (h56 : raw % 2 ^ 7 ≠ 56) (h57 : raw % 2 ^ 7 ≠ 57)
    (h66 : raw % 2 ^ 7 ≠ 66) (h67 : raw % 2 ^ 7 ≠ 67) :
    decode raw = none ∧
    ∀ (hdl : Nat) (idev : InputDev),
      (tbtn_notify_handler (some ⟨hdl, some idev⟩) 0x80 (.ok raw)).emitterCalls = [] ∧
      (tbtn_notify_handler (some ⟨hdl, some idev⟩) 0x80 (.ok raw)).emitted = [] ∧
      ((tbtn_notify_handler (some ⟨hdl, some idev⟩) 0x80 (.ok raw)).logs.filter
        Log.isWarn) = [.warnUnhandledKeyValue (raw % 2 ^ 7)] := by
  have hdec : decode raw = none := by
    unfold decode decode_key_value
    rw [and_7F_eq_mod]
    split_ifs <;> simp_all
  refine ⟨hdec, ?_⟩
  intro hdl idev
  rw [handler_ok_eq, hdec, and_7F_eq_mod]
  exact ⟨rfl, rfl, rfl⟩

/-- C3 witness: raw value 0x7F produces no decoded event, no emission, and
exactly one warning. -/
theorem decoder_rejects_unknown_codes_witness :
    decode 0x7F = none ∧
    (tbtn_notify_handler (some ⟨0, some ⟨tbtn_keymap⟩⟩) 0x80 (.ok 0x7F)).emitted = [] ∧
    ((tbtn_notify_handler (some ⟨0, some ⟨tbtn_keymap⟩⟩) 0x80 (.ok 0x7F)).logs.filter
      Log.isWarn) = [.warnUnhandledKeyValue 127] :=
  ⟨(decoder_rejects_unknown_codes 0x7F (by norm_num) (by norm_num) (by norm_num)
      (by norm_num) (by norm_num)).1,
   ((decoder_rejects_unknown_codes 0x7F (by norm_num) (by norm_num) (by norm_num)
      (by norm_num) (by norm_num)).2 0 ⟨tbtn_keymap⟩).2.1,
   ((decoder_rejects_unknown_codes 0x7F (by norm_num) (by norm_num) (by norm_num)
      (by norm_num) (by norm_num)).2 0 ⟨tbtn_keymap⟩).2.2⟩

/-- C4: the keymap table is exactly the entries 57 to PROG1 and 67 to PROG2
followed by the sentinel, its raw codes are pairwise distinct, and every
report key the decoder can ever pass to the event emitter has a matching
entry in the table. -/
theorem keymap_covers_decoder :
    tbtn_keymap =
      [⟨.KE_KEY, 57, KEY_PROG1⟩, ⟨.KE_KEY, 67, KEY_PROG2⟩, ⟨.KE_END, 0, 0⟩] ∧
    (tbtn_keymap.map KeyEntry.code).Nodup ∧
    ∀ (raw rk : Nat) (et : Int), decode raw = some (rk, et) →
      (sparse_keymap_entry tbtn_keymap rk).isSome = true := by
  refine ⟨rfl, by decide, ?_⟩
  intro raw rk et h
  rcases (decode_key_value_cases _ _ _ h).1 with h57 | h67 <;> subst_vars <;> decide

/-- C4 witness: report key 57 (produced by decoding raw value 57) has an
entry in the table. -/
theorem keymap_covers_decoder_witness :
    (sparse_keymap_entry tbtn_keymap 57).isSome = true :=
  keymap_covers_decoder.2.2 57 57 1 (by decide)

/-- C5: a HINF evaluation failure is logged (pr_err) and the notification
is dropped with no side effects: no emitter call, nothing emitted, the
device context unchanged, and the firmware method evaluated exactly once
(no retry). -/
theorem hinf_failure_drops_notification (hdl : Nat) (idev : InputDev) (s : Nat) :
    tbtn_notify_handler (some ⟨hdl, some idev⟩) 0x80 (.error s) =
      ⟨[.infoNotifyReceived, .errHinfFailed s], 1, [], [], some ⟨hdl, some idev⟩⟩ :=
  rfl

/-- Normal form of the handler on a notify code other than 0x80 against an
initialized device: it only logs the unknown event. -/
theorem handler_ne80_eq (hdl : Nat) (idev : InputDev) (event : Nat)
    (hinf : Except Nat Nat) (hev : event ≠ 0x80) :
    tbtn_notify_handler (some ⟨hdl, some idev⟩) event hinf =
      ⟨[.infoUnknownEvent event], 0, [], [], some ⟨hdl, some idev⟩⟩ := by
  simp only [tbtn_notify_handler]

/-- C6: for every notify code other than 0x80 the HINF firmware method is
never evaluated and no emitter call or emission happens, for any device
context; with an initialized device the handler logs exactly the
unknown-event line. -/
theorem unknown_event_ignored (tbtn : Option TbtnDev) (event : Nat)
    (hinf : Except Nat Nat) (hev : event ≠ 0x80) :
    ((tbtn_notify_handler tbtn event hinf).hinfQueries = 0 ∧
     (tbtn_notify_handler tbtn event hinf).emitterCalls = [] ∧
     (tbtn_notify_handler tbtn event hinf).emitted = []) ∧
    ∀ (hdl : Nat) (idev : InputDev), tbtn = some ⟨hdl, some idev⟩ →
      (tbtn_notify_handler tbtn event hinf).logs = [.infoUnknownEvent event] := by
  rcases tbtn with _ | ⟨hdl, _ | idev⟩
  · exact ⟨⟨rfl, rfl, rfl⟩, by intro _ _ h; cases h⟩
  · exact ⟨⟨rfl, rfl, rfl⟩, by intro _ _ h; cases h⟩
  · rw [handler_ne80_eq hdl idev event hinf hev]
    exact ⟨⟨rfl, rfl, rfl⟩, by intro _ _ _; rfl⟩

/-- C6 witness: notify code 0x81 against a bound device only logs the
unknown event, with no HINF query and no emission. -/
theorem unknown_event_ignored_witness :
    (tbtn_notify_handler (some boundDev) 0x81 (.ok 57)).hinfQueries = 0 ∧
    (tbtn_notify_handler (some boundDev) 0x81 (.ok 57)).logs =
      [.infoUnknownEvent 0x81] :=
  ⟨(unknown_event_ignored (some boundDev) 0x81 (.ok 57) (by norm_num)).1.1,
   (unknown_event_ignored (some boundDev) 0x81 (.ok 57) (by norm_num)).2
     0 ⟨tbtn_keymap⟩ rfl⟩

/-- C8: an emission failure (the report key is missing from the device
keymap) is logged as a warning and the handler returns normally: nothing
is emitted, the device context is unchanged, and any subsequent
notification behaves exactly as it would with no prior failure. -/
theorem emission_failure_nonfatal (hdl : Nat) (km : List KeyEntry) (raw rk : Nat)
    (et : Int) (hdec : decode raw = some (rk, et))
    (hmiss : sparse_keymap_entry km rk = none) :
    (tbtn_notify_handler (some ⟨hdl, some ⟨km⟩⟩) 0x80 (.ok raw)).logs =
      [.infoNotifyReceived, .infoHinfReturned raw, .warnReportFailed raw rk et] ∧
    (tbtn_notify_handler (some ⟨hdl, some ⟨km⟩⟩) 0x80 (.ok raw)).emitted = [] ∧
    (tbtn_notify_handler (some ⟨hdl, some ⟨km⟩⟩) 0x80 (.ok raw)).finalDev =
      some ⟨hdl, some ⟨km⟩⟩ ∧
    ∀ (event2 : Nat) (hinf2 : Except Nat Nat),
      tbtn_notify_handler
        ((tbtn_notify_handler (some ⟨hdl, some ⟨km⟩⟩) 0x80 (.ok raw)).finalDev)
        event2 hinf2 =
      tbtn_notify_handler (some ⟨hdl, some ⟨km⟩⟩) event2 hinf2 := by
  have hrep : sparse_keymap_report_event km rk et = none := by
    unfold sparse_keymap_report_event
    rw [hmiss]
  rw [handler_ok_eq, hdec]
  simp [hrep]

/-- C8 witness: against a device whose keymap is empty, raw value 57
decodes but fails to emit, with only the failure warning logged. -/
theorem emission_failure_nonfatal_witness :
    (tbtn_notify_handler (some ⟨0, some ⟨[]⟩⟩) 0x80 (.ok 57)).emitted = [] ∧
    (tbtn_notify_handler (some ⟨0, some ⟨[]⟩⟩) 0x80 (.ok 57)).logs =
      [.infoNotifyReceived, .infoHinfReturned 57, .warnReportFailed 57 57 1] :=
  ⟨(emission_failure_nonfatal 0 [] 57 57 1 (by decide) rfl).2.1,
   (emission_failure_nonfatal 0 [] 57 57 1 (by decide) rfl).1⟩

/-- C9: with a null driver context, or one whose input device pointer is
null, the handler only logs the uninitialized-device warning: the HINF
method is not evaluated, no emitter call is made, nothing is emitted. -/
theorem uninitialized_device_guard (event : Nat) (hinf : Except Nat Nat) :
    tbtn_notify_handler none event hinf =
      ⟨[.warnUninitializedDevice], 0, [], [], none⟩ ∧
    ∀ hdl : Nat,
      tbtn_notify_handler (some ⟨hdl, none⟩) event hinf =
        ⟨[.warnUninitializedDevice], 0, [], [], some ⟨hdl, none⟩⟩ :=
  ⟨rfl, fun _ => rfl⟩

/-- Decoding succeeds exactly when the low 7 bits are one of the four
recognized codes. -/
theorem decode_isSome_iff (r : Nat) :
    (decode r).isSome = true ↔
      (r % 2 ^ 7 = 56 ∨ r % 2 ^ 7 = 57 ∨ r % 2 ^ 7 = 66 ∨ r % 2 ^ 7 = 67) := by
  unfold decode decode_key_value
  rw [and_7F_eq_mod]
  split_ifs <;> simp_all

/-- C10: each invocation of the handler calls the event emitter at most
once, and for an initialized device it calls it exactly when the notify
code is 0x80, the HINF evaluation succeeds, and the low 7 bits of the
returned value are one of 56, 57, 66, 67. -/
theorem emitter_called_at_most_once (tbtn : Option TbtnDev) (event : Nat)
    (hinf : Except Nat Nat) :
    (tbtn_notify_handler tbtn event hinf).emitterCalls.length ≤ 1 ∧
    (∀ (hdl : Nat) (idev : InputDev), tbtn = some ⟨hdl, some idev⟩ →
      ((tbtn_notify_handler tbtn event hinf).emitterCalls ≠ [] ↔
        event = 0x80 ∧ ∃ r, hinf = .ok r ∧
          (r % 2 ^ 7 = 56 ∨ r % 2 ^ 7 = 57 ∨ r % 2 ^ 7 = 66 ∨ r % 2 ^ 7 = 67))) := by
  rcases tbtn with _ | ⟨hdl, _ | idev⟩
  · exact ⟨by simp [tbtn_notify_handler], by intro _ _ h; cases h⟩
  · exact ⟨by simp [tbtn_notify_handler], by intro _ _ h; cases h⟩
  · by_cases hev : event = 0x80
    · subst hev
      rcases hinf with s | r
      · refine ⟨by simp [tbtn_notify_handler], ?_⟩
        rintro hdl2 idev2 h
        simp [tbtn_notify_handler]
      · rw [handler_ok_eq]
        rcases hd : decode r with _ | ⟨rk, et⟩
        · have hns : ¬(r % 2 ^ 7 = 56 ∨ r % 2 ^ 7 = 57 ∨ r % 2 ^ 7 = 66 ∨
              r % 2 ^ 7 = 67) := by
            rw [← decode_isSome_iff, hd]
            simp
          refine ⟨by simp, ?_⟩
          rintro hdl2 idev2 h
          rw [show (2 : ℕ) ^ 7 = 128 from by norm_num] at hns
          simp [hns]
        · have hs : (r % 2 ^ 7 = 56 ∨ r % 2 ^ 7 = 57 ∨ r % 2 ^ 7 = 66 ∨
              r % 2 ^ 7 = 67) := by
            rw [← decode_isSome_iff, hd]
            rfl
          rw [show (2 : ℕ) ^ 7 = 128 from by norm_num] at hs
          rcases hrep : sparse_keymap_report_event idev.keymap rk et with _ | ev <;>
          · refine ⟨by simp [hrep], ?_⟩
            rintro hdl2 idev2 h
            simp [hrep]
            omega
    · rw [handler_ne80_eq hdl idev event hinf hev]
      refine ⟨by simp, ?_⟩
      rintro hdl2 idev2 h
      simp [hev]

/-- C10 witness: raw value 57 against a bound device makes the emitter call
nonempty, and the call count is at most one. -/
theorem emitter_called_at_most_once_witness :
    (tbtn_notify_handler (some boundDev) 0x80 (.ok 57)).emitterCalls.length ≤ 1 ∧
    (tbtn_notify_handler (some boundDev) 0x80 (.ok 57)).emitterCalls ≠ [] :=
  ⟨(emitter_called_at_most_once (some boundDev) 0x80 (.ok 57)).1,
   ((emitter_called_at_most_once (some boundDev) 0x80 (.ok 57)).2 0 ⟨tbtn_keymap⟩
      rfl).mpr ⟨rfl, 57, rfl, by norm_num⟩⟩

/-- Injected outcomes of the host-runtime calls tbtn_add makes: whether
devm_kzalloc and devm_input_allocate_device succeed, and the error codes
returned by sparse_keymap_setup and input_register_device (0 on success, a
negative errno on failure). -/
structure AddEnv where
  kzallocOk : Bool
  inputAllocOk : Bool
  keymapSetupErr : Int
  registerErr : Int
deriving DecidableEq, Repr

/-- The errno value ENOMEM. -/
def ENOMEM : Int := 12

/-- Result of one run of tbtn_add: the returned code, whether driver_data
was set, whether the keymap was installed on the input device, whether
input_register_device was called, and whether the bind finished with the
device registered with the input subsystem. -/
structure AddResult where
  ret : Int
  driverDataSet : Bool
  keymapInstalled : Bool
  registerAttempted : Bool
  inputRegistered : Bool
deriving DecidableEq, Repr

/-- The add callback tbtn_add (src/tbtn_driver.c, lines 123-175): allocate
the context with devm_kzalloc (return -ENOMEM on failure), store the handle
and driver_data, allocate the input device (return -ENOMEM on failure),
set up the keymap with sparse_keymap_setup (return its error on failure),
then, as the last step, register the input device (return its error on
failure; devm-scoped cleanup frees the allocations automatically). -/
def tbtn_add (env : AddEnv) : AddResult :=
  if !env.kzallocOk then ⟨-ENOMEM, false, false, false, false⟩
  else if !env.inputAllocOk then ⟨-ENOMEM, true, false, false, false⟩
  else if env.keymapSetupErr ≠ 0 then ⟨env.keymapSetupErr, true, false, false, false⟩
  else if env.registerErr ≠ 0 then ⟨env.registerErr, true, true, true, false⟩
  else ⟨0, true, true, true, true⟩

/-- C7: during bind, any allocation, keymap-setup, or registration failure
returns a negative error code with no device left registered with the
input subsystem; registration is attempted only after allocation and
keymap setup have succeeded (it is the last step); and a failure-free bind
returns 0 with the device registered. -/
theorem add_failure_atomic (env : AddEnv)
    (hkm : env.keymapSetupErr ≤ 0) (hreg : env.registerErr ≤ 0) :
    (¬(env.kzallocOk = true ∧ env.inputAllocOk = true ∧
        env.keymapSetupErr = 0 ∧ env.registerErr = 0) →
      (tbtn_add env).ret < 0 ∧ (tbtn_add env).inputRegistered = false) ∧
    ((tbtn_add env).registerAttempted = true →
      env.kzallocOk = true ∧ env.inputAllocOk = true ∧ env.keymapSetupErr = 0) ∧
    (env.kzallocOk = true ∧ env.inputAllocOk = true ∧
        env.keymapSetupErr = 0 ∧ env.registerErr = 0 →
      (tbtn_add env).ret = 0 ∧ (tbtn_add env).inputRegistered = true) := by
  rcases env with ⟨kz, ia, km, rg⟩
  simp only [tbtn_add, ENOMEM] at *
  rcases kz <;> rcases ia <;> simp_all <;> split_ifs <;> simp_all <;> omega

/-- C7 witness: a bind in which sparse_keymap_setup fails with -EINVAL
returns that negative code and leaves no device registered, and a
failure-free bind returns 0 with the device registered. -/
theorem add_failure_atomic_witness :
    ((tbtn_add ⟨true, true, -22, 0⟩).ret < 0 ∧
     (tbtn_add ⟨true, true, -22, 0⟩).inputRegistered = false) ∧
    ((tbtn_add ⟨true, true, 0, 0⟩).ret = 0 ∧
     (tbtn_add ⟨true, true, 0, 0⟩).inputRegistered = true) :=
  ⟨(add_failure_atomic ⟨true, true, -22, 0⟩ (by norm_num) (by norm_num)).1
     (by simp),
   (add_failure_atomic ⟨true, true, 0, 0⟩ (by norm_num) (by norm_num)).2.2
     ⟨rfl, rfl, rfl, rfl⟩⟩
